import Mathlib

/-!
# PaperBuddy — verification of the Result Export Pipeline

Shallow embedding of the core of the PaperBuddy repository:

* the pagination geometry of `exportToPDF` (pdfExporter, Module D),
* the theme save/restore discipline of `exportToPDF`,
* the image-relay fallback chain of `imageToBase64` and the per-image
  resolution step of the export engine,
* the `Promise.all` barrier between image resolution and rasterization,
* the pipeline orchestrator `executeFullPipeline` (api.js) and the input
  validation in `handleSubmit` (App.jsx),
* the shared request wrapper `apiRequest` (api.js).

All geometry is carried out over `ℚ` (the JavaScript source computes with
doubles; the spec claims are about the exact arithmetic the formulas denote).
Remote collaborators and the DOM are modelled as explicit oracles: a record of
the responses the network would give, threaded through otherwise pure
functions that mirror the source control flow statement by statement.
-/

namespace PaperBuddy

/-! ## Pagination geometry of `exportToPDF`

Source: pdfExporter module, `exportToPDF`, geometry block.
A4 portrait, 10 mm margin, 96 DPI pixel-density assumption. -/

/-- Source: `const pdfWidth = 210` (mm). -/
def pdfWidth : ℚ := 210

/-- Source: `const pdfHeight = 297` (mm). -/
def pdfHeight : ℚ := 297

/-- Source: `const margin = 10` (mm, each side). -/
def margin : ℚ := 10

/-- Source: `const contentWidth = pdfWidth - (margin * 2)`. -/
def contentWidth : ℚ := pdfWidth - margin * 2

/-- Source: `const contentHeight = pdfHeight - (margin * 2)`. -/
def contentHeight : ℚ := pdfHeight - margin * 2

/-- Source: `const pixelsPerMm = 96 / 25.4`. -/
def pixelsPerMm : ℚ := 96 / 25.4

/-- Source: `const imgWidthMm = imgWidth / pixelsPerMm`. -/
def imgWidthMm (imgWidth : ℚ) : ℚ := imgWidth / pixelsPerMm

/-- Source: `const imgHeightMm = imgHeight / pixelsPerMm`. -/
def imgHeightMm (imgHeight : ℚ) : ℚ := imgHeight / pixelsPerMm

/-- Source: `const widthRatio = contentWidth / imgWidthMm` (renamed: `widthFactor`). -/
def widthFactor (imgWidth : ℚ) : ℚ := contentWidth / imgWidthMm imgWidth

/-- Source: `const heightRatio = contentHeight / imgHeightMm` (renamed: `heightFactor`). -/
def heightFactor (imgHeight : ℚ) : ℚ := contentHeight / imgHeightMm imgHeight

/-- Source: `const ratio = Math.min(widthRatio, heightRatio)` (renamed: `fitFactor`). -/
def fitFactor (imgWidth imgHeight : ℚ) : ℚ :=
  min (widthFactor imgWidth) (heightFactor imgHeight)

/-- Source: `const scaledWidth = imgWidthMm * ratio`. -/
def scaledWidth (imgWidth imgHeight : ℚ) : ℚ :=
  imgWidthMm imgWidth * fitFactor imgWidth imgHeight

/-- Source: `const scaledHeight = imgHeightMm * ratio`. -/
def scaledHeight (imgWidth imgHeight : ℚ) : ℚ :=
  imgHeightMm imgHeight * fitFactor imgWidth imgHeight

/-- One emitted PDF page: placement rectangle passed to `pdf.addImage`
(x, y in mm from the top-left corner, width and height in mm). -/
structure PdfPage where
  x : ℚ
  y : ℚ
  w : ℚ
  h : ℚ
  deriving DecidableEq, Repr

/-- The `while (sourceY < imgHeight)` slicing loop of the multi-page branch.
`bandPx = Math.min(sourceHeight, imgHeight - sourceY)` pixels are drawn onto a
page canvas and placed at `(x, margin)` with physical height
`bandPx / pixelsPerMm * ratio`; `sourceY` advances by `bandPx`.  The loop is
given explicit fuel bounding its iteration count (the JavaScript loop
terminates because `sourceY` strictly increases by `sourceHeight` per
iteration until the last band). -/
def sliceLoop (imgHeight r sw sourceHeight : ℚ) : ℚ → Nat → List PdfPage
  | _, 0 => []
  | sourceY, Nat.succ fuel =>
    if sourceY < imgHeight then
      let bandPx := min sourceHeight (imgHeight - sourceY)
      ⟨(pdfWidth - sw) / 2, margin, sw, bandPx / pixelsPerMm * r⟩ ::
        sliceLoop imgHeight r sw sourceHeight (sourceY + bandPx) fuel
    else []

/-- The pagination phase of `exportToPDF`: from the captured canvas size
(`imgWidth × imgHeight` pixels) to the list of emitted pages, in order.
Mirrors the `if (scaledHeight <= contentHeight) { ... } else { ... }` block:
the single-page branch centers horizontally (`x = (pdfWidth - scaledWidth)/2`)
and places at the top margin; the multi-page branch slices with
`sourceHeight = imgHeight / ratio`. -/
def paginate (imgWidth imgHeight : ℚ) : List PdfPage :=
  let r := fitFactor imgWidth imgHeight
  let sw := scaledWidth imgWidth imgHeight
  let sh := scaledHeight imgWidth imgHeight
  if sh ≤ contentHeight then
    [⟨(pdfWidth - sw) / 2, margin, sw, sh⟩]
  else
    let sourceHeight := imgHeight / r
    sliceLoop imgHeight r sw sourceHeight 0 ((⌈imgHeight / sourceHeight⌉).toNat + 1)

/-! ## Image relay fallback chain: `imageToBase64`

Source: pdfExporter module, `imageToBase64`.  The function fetches the image
through the primary CORS relay (`api.allorigins.win`); any throw in that block
(network error, or the explicit `throw` on a non-ok status) lands in the catch
block, which tries the fallback relay (`corsproxy.io`).  A non-ok fallback
response falls through to `return null` without logging; a throwing fallback
fetch logs the "Both proxy services failed" warning and returns null. -/

/-- Result of one relay fetch, as seen by `imageToBase64`. -/
inductive RelayResult
  | ok (bytes : String)
  /-- `fetch` resolved but `response.ok` is false. -/
  | httpError (status : Nat)
  /-- `fetch` itself threw. -/
  | netError (msg : String)
  deriving DecidableEq, Repr

/-- Whether the relay attempt counts as a failure (anything but delivered bytes). -/
def RelayResult.failed : RelayResult → Bool
  | .ok _ => false
  | .httpError _ => true
  | .netError _ => true

/-- The two relays, in the order the source tries them. -/
inductive Relay
  | primary
  | fallback
  deriving DecidableEq, Repr

/-- Oracle: what each relay would answer for one image URL. -/
structure ImageNetwork where
  primaryResult : RelayResult
  fallbackResult : RelayResult
  deriving DecidableEq, Repr

/-- Model of `FileReader.readAsDataURL`: the delivered bytes as a data URL. -/
def toDataUrl (bytes : String) : String := "data:" ++ bytes

/-- What one `imageToBase64` call produced: the returned value (null = `none`),
the relays queried in order, and whether the "Both proxy services failed"
warning was logged inside `imageToBase64` itself. -/
structure RelayOutcome where
  result : Option String
  attempts : List Relay
  warnedBothFailed : Bool
  deriving DecidableEq, Repr

/-- The call `imageToBase64(url)` over the network oracle. -/
def imageToBase64 (net : ImageNetwork) : RelayOutcome :=
  match net.primaryResult with
  | .ok bytes => ⟨some (toDataUrl bytes), [.primary], false⟩
  | .httpError _ | .netError _ =>
    match net.fallbackResult with
    | .ok bytes => ⟨some (toDataUrl bytes), [.primary, .fallback], false⟩
    | .httpError _ =>
      -- `if (response.ok)` is false: control falls through to `return null`
      -- without entering the inner catch, so no warning is logged here.
      ⟨none, [.primary, .fallback], false⟩
    | .netError _ =>
      -- inner catch: `console.warn("Both proxy services failed ...")`
      ⟨none, [.primary, .fallback], true⟩

/-- An `<img>` element, reduced to the attribute the exporter reads/writes. -/
structure Img where
  src : String
  deriving DecidableEq, Repr

/-- JavaScript `String.prototype.startsWith`, on the character lists. -/
def strStartsWith (s pat : String) : Bool := pat.data.isPrefixOf s.data

/-- JavaScript `String.prototype.trim`: strip leading and trailing
whitespace. -/
def strTrim (s : String) : String :=
  ⟨((s.data.dropWhile Char.isWhitespace).reverse.dropWhile
      Char.isWhitespace).reverse⟩

/-- Source: `img.src.startsWith("data:") || img.src.startsWith("blob:")`. -/
def isInlineSrc (src : String) : Bool :=
  strStartsWith src "data:" || strStartsWith src "blob:"

/-- Result of the per-image step inside `exportToPDF` (the async closure mapped
over `element.querySelectorAll("img")`): the image afterwards, the relays
queried, and whether any warning was logged for this image. -/
structure ImageStepResult where
  img : Img
  attempts : List Relay
  warned : Bool
  deriving DecidableEq, Repr

/-- The per-image resolution step of `exportToPDF`: skip inlined sources,
otherwise call `imageToBase64`; on a non-null result rewrite `img.src`, on null
log the "Conversion failed, will attempt to use original URL in PDF" warning
and leave `img.src` untouched.  Total: no path rethrows (the surrounding
`try/catch` turns even a rejection into a logged warning). -/
def processImage (net : ImageNetwork) (img : Img) : ImageStepResult :=
  if isInlineSrc img.src then ⟨img, [], false⟩
  else
    let o := imageToBase64 net
    match o.result with
    | some b64 => ⟨⟨b64⟩, o.attempts, o.warnedBothFailed⟩
    | none => ⟨img, o.attempts, true⟩

/-! ## The `exportToPDF` run: theme discipline and exit paths

Source: pdfExporter module, `exportToPDF`.  The fallible non-image phases are
represented by an oracle of booleans; image resolution has no failure exit.
The theme flag (the `data-theme` attribute of `document.documentElement`) is
threaded explicitly. -/

/-- Oracle for one `exportToPDF` call: the theme before the call, the images
in the element with their relay oracles, and whether each fallible phase
succeeds (`importsOk`: the dynamic `import` calls; `captureOk`: `html2canvas`;
`saveOk`: `pdf.save`). -/
structure ExportEnv where
  theme0 : String
  imgs : List (Img × ImageNetwork)
  importsOk : Bool
  captureOk : Bool
  saveOk : Bool

/-- The theme-restore statement shared by the success path and the catch
block: `if (wasDarkMode) setAttribute("data-theme", "dark")` on the document
root, applied to the current value of the flag. -/
def restoreTheme (wasDarkMode : Bool) (theme : String) : String :=
  if wasDarkMode then "dark" else theme

/-- Outcome of one `exportToPDF` call: whether it returned normally, the theme
flag after it returned (normally or by rethrow), and the images as the
rasterizer saw them. -/
structure ExportRunResult where
  success : Bool
  finalTheme : String
  resolvedImgs : List Img
  deriving DecidableEq, Repr

/-- One `exportToPDF` call, statement by statement:
read `currentTheme` and `wasDarkMode`; inside the `try`, run the dynamic
imports (a throw here reaches the catch with the theme still untouched), force
light mode if `wasDarkMode`, resolve every image (total, never throws),
capture, paginate, save; restore the theme on the success path; the catch
restores the theme and rethrows. -/
def exportToPDFRun (env : ExportEnv) : ExportRunResult :=
  let currentTheme := env.theme0
  let wasDarkMode := currentTheme = "dark"
  if env.importsOk = false then
    -- throw before the theme was touched; catch restores and rethrows
    ⟨false, restoreTheme wasDarkMode currentTheme, env.imgs.map (·.1)⟩
  else
    -- Step 0: force light mode for the capture
    let theme1 := if wasDarkMode then "light" else currentTheme
    -- Step 1: resolve every image; `Promise.all` of total per-image steps
    let resolved := env.imgs.map fun p => (processImage p.2 p.1).img
    if env.captureOk = false then
      -- html2canvas rejected: catch restores the theme and rethrows
      ⟨false, restoreTheme wasDarkMode theme1, resolved⟩
    else if env.saveOk = false then
      ⟨false, restoreTheme wasDarkMode theme1, resolved⟩
    else
      -- success path: restore the original theme, return
      ⟨true, restoreTheme wasDarkMode theme1, resolved⟩

/-! ## The `Promise.all` barrier before rasterization

`exportToPDF` issues all per-image resolutions, then `await Promise.all(...)`
suspends the main task until every one has settled; only the resumed main task
calls `html2canvas`.  Modelled as a transition system: image tasks settle in
any order and with any outcome; the capture transition is enabled only once no
resolution is pending — exactly the `Promise.all` continuation. -/

/-- How one image resolution settles: converted via the primary relay, via the
fallback relay, or given up (null result accepted). -/
inductive SettleOutcome
  | direct
  | viaFallback
  | gaveUp
  deriving DecidableEq, Repr

/-- Scheduler state of the export engine between issuing the image resolutions
and rasterizing: the indices of images whose resolution has not yet settled,
and whether `html2canvas` has been entered. -/
structure Phase2State where
  pending : List Nat
  captured : Bool
  deriving DecidableEq, Repr

/-- One scheduler step: either some pending image resolution settles (any
order, any outcome), or the main task resumes from `await Promise.all` — which
requires every resolution settled — and enters `html2canvas`. -/
inductive ExportStep : Phase2State → Phase2State → Prop
  | settle (i : Nat) (o : SettleOutcome) (s : Phase2State)
      (hmem : i ∈ s.pending) (hc : s.captured = false) :
      ExportStep s ⟨s.pending.erase i, false⟩
  | capture (s : Phase2State) (hall : s.pending = []) (hc : s.captured = false) :
      ExportStep s ⟨[], true⟩

/-- States reachable from the start of Phase 2 with the given set of
unsettled image resolutions. -/
def exportReaches (pending0 : List Nat) (s : Phase2State) : Prop :=
  Relation.ReflTransGen ExportStep ⟨pending0, false⟩ s

/-! ## Pipeline orchestrator: `executeFullPipeline` (api.js)

The remote collaborators are an oracle (`Backend`) giving the response of
each endpoint; a run returns the pipeline outcome together with the trace of
endpoint calls, in the order the source awaits them. -/

/-- The five remote endpoints `executeFullPipeline` can reach through
`apiRequest`. -/
inductive Endpoint
  | parseByFile
  | parseByUrl
  | parseByManual
  | summarize
  | illustrate
  deriving DecidableEq, Repr

/-- Whether an endpoint is one of the three parse endpoints. -/
def Endpoint.isParse : Endpoint → Bool
  | .parseByFile => true
  | .parseByUrl => true
  | .parseByManual => true
  | .summarize => false
  | .illustrate => false

/-- An error thrown out of a stage (`throw new Error(message)` or a rejected
`apiRequest`). -/
structure ApiError where
  message : String
  deriving DecidableEq, Repr

/-- One `{heading, content}` section. -/
structure PaperSection where
  heading : String
  content : String
  deriving DecidableEq, Repr

/-- The `ParsedPaper` record as returned by the parse endpoints. -/
structure Paper where
  title : String
  authors : List String
  abstract : String
  sections : List PaperSection
  courseTopic : String
  deriving DecidableEq, Repr

/-- The summary object, reduced to the fields the orchestrator reads:
`steps` may be absent (`none`) in the parsed JSON. -/
structure Summary where
  big_idea : String
  steps : Option (List String)
  deriving DecidableEq, Repr

/-- One generated illustration. -/
structure GeneratedImage where
  url : Option String
  description : Option String
  key_point : Option String
  deriving DecidableEq, Repr

/-- The `IllustrationSet` record: `{images: [...]}`. -/
structure IllustrationSet where
  images : List GeneratedImage
  deriving DecidableEq, Repr

/-- The assembled `{paperData, summary, images}` record the pipeline returns. -/
structure PipelineResult where
  paperData : Paper
  summary : Summary
  images : IllustrationSet
  deriving DecidableEq, Repr

/-- The `input.data` field: in JavaScript it is untyped; the dispatch looks only
at `input.type` and forwards `input.data` opaquely to the chosen endpoint. -/
inductive InputPayload
  | file (f : String)
  | url (s : String)
  | manualData (title authors abstract : String) (sections : List PaperSection)
  | absent
  deriving DecidableEq, Repr

/-- The `input` argument of `executeFullPipeline`. -/
structure PipelineInput where
  type : String
  data : InputPayload
  courseTopic : String

/-- Oracle for the remote collaborators: the response of each endpoint as a function
of what the orchestrator sends it (each field is the settled value of the
corresponding `apiRequest` call — a parsed JSON value or a thrown error). -/
structure Backend where
  parseFileResp : InputPayload → String → Except ApiError Paper
  parseUrlResp : InputPayload → String → Except ApiError Paper
  parseManualResp : InputPayload → String → Except ApiError Paper
  summarizeResp : Paper → Except ApiError Summary
  generateImagesResp : List String → String → Except ApiError IllustrationSet

/-- Source: `const keyPoints = summary.steps || []` — an absent `steps` yields `[]`;
a present empty array is truthy in JavaScript but is itself `[]`, so the value
is the underlying list either way. -/
def keyPoints (s : Summary) : List String := s.steps.getD []

/-- Step 1 of `executeFullPipeline`: dispatch on `input.type` to the matching
parse endpoint (passing `courseTopic` along), or throw
`Invalid input type: ...` without any call.  Returns the awaited response and
the endpoints called. -/
def parsePhase (be : Backend) (input : PipelineInput) :
    Except ApiError Paper × List Endpoint :=
  if input.type = "pdf" then
    (be.parseFileResp input.data input.courseTopic, [.parseByFile])
  else if input.type = "url" then
    (be.parseUrlResp input.data input.courseTopic, [.parseByUrl])
  else if input.type = "manual" then
    (be.parseManualResp input.data input.courseTopic, [.parseByManual])
  else
    (.error ⟨"Invalid input type: " ++ input.type⟩, [])

/-- The run of `executeFullPipeline(input)`: parse, then summarize with the parsed paper,
then — only when `keyPoints` is nonempty — illustrate with the key points and
the default `"pastel"` style; `images` starts as `{images: []}` and is only
replaced by a successful illustrate call.  A thrown stage error is rethrown
unchanged (the catch merely logs).  The second component is the trace of
endpoint calls in order. -/
def executeFullPipeline (be : Backend) (input : PipelineInput) :
    Except ApiError PipelineResult × List Endpoint :=
  match parsePhase be input with
  | (.error e, tr) => (.error e, tr)
  | (.ok paperData, tr) =>
    match be.summarizeResp paperData with
    | .error e => (.error e, tr ++ [.summarize])
    | .ok summary =>
      let kp := keyPoints summary
      if 0 < kp.length then
        match be.generateImagesResp kp "pastel" with
        | .error e => (.error e, tr ++ [.summarize, .illustrate])
        | .ok images =>
          (.ok ⟨paperData, summary, images⟩, tr ++ [.summarize, .illustrate])
      else
        (.ok ⟨paperData, summary, ⟨[]⟩⟩, tr ++ [.summarize])

/-! ## Form validation: `handleSubmit` (App.jsx) -/

/-- The component state `handleSubmit` reads: the selected input type, the
form fields, and the course topic.  `pdfFile` is `none` when no file was
chosen. -/
structure FormState where
  inputType : String
  pdfFile : Option String
  urlInput : String
  manualTitle : String
  manualAuthors : String
  manualAbstract : String
  manualSections : List PaperSection
  courseTopic : String

/-- The run of `handleSubmit`: validate the active form fields (JavaScript falsiness of a
string is emptiness), throwing before `executeFullPipeline` — and hence before
any network call — when a required field is missing; otherwise build `input`
and run the pipeline.  The trace component lists every endpoint called. -/
def handleSubmit (st : FormState) (be : Backend) :
    Except ApiError PipelineResult × List Endpoint :=
  if st.inputType = "pdf" then
    match st.pdfFile with
    | none => (.error ⟨"Please select a PDF file"⟩, [])
    | some f => executeFullPipeline be ⟨st.inputType, .file f, st.courseTopic⟩
  else if st.inputType = "url" then
    if st.urlInput = "" ∨ strTrim st.urlInput = "" then
      (.error ⟨"Please enter a URL"⟩, [])
    else
      executeFullPipeline be
        ⟨st.inputType, .url (strTrim st.urlInput), st.courseTopic⟩
  else if st.inputType = "manual" then
    if st.manualTitle = "" ∨ st.manualAuthors = "" ∨ st.manualAbstract = "" then
      (.error ⟨"Please fill in all required fields"⟩, [])
    else
      executeFullPipeline be
        ⟨st.inputType,
          .manualData st.manualTitle st.manualAuthors st.manualAbstract
            (st.manualSections.filter fun s => s.heading ≠ "" ∨ s.content ≠ ""),
          st.courseTopic⟩
  else
    executeFullPipeline be ⟨st.inputType, .absent, st.courseTopic⟩

/-! ## The shared request wrapper: `apiRequest` (api.js) -/

/-- A JSON value, as `JSON.parse` would produce it. -/
inductive Json
  | null
  | bool (b : Bool)
  | num (q : ℚ)
  | str (s : String)
  | arr (xs : List Json)
  | obj (fields : List (String × Json))

/-- JavaScript `String.prototype.includes`. -/
def strIncludes (s pat : String) : Bool := decide (pat.data <:+: s.data)

/-- The value `errorData.error` when it is a truthy string (the only shape the server
contract produces for error bodies). -/
def Json.errorField : Json → Option String
  | .obj fields =>
    match fields.lookup "error" with
    | some (.str s) => if s = "" then none else some s
    | _ => none
  | _ => none

/-- What one `fetch` of an endpoint yielded, as `apiRequest` observes it:
the response flags and headers, the body read once as text, and the outcome
of `JSON.parse` on that text (`none` when parsing throws). -/
structure HttpResponse where
  ok : Bool
  status : Nat
  statusText : String
  text : String
  contentType : Option String
  parsedJson : Option Json

/-- The run of `apiRequest(endpoint, options)` after the `fetch` resolved: a non-ok
status throws (preferring the `error` field of the parsed body, then the raw text,
then `HTTP status: statusText`); an ok response throws on an empty
(whitespace-only) body, on a declared non-JSON content type, and on a body
`JSON.parse` rejects; otherwise the parsed JSON value is returned. -/
def apiRequest (resp : HttpResponse) : Except String Json :=
  if resp.ok = false then
    let base := "HTTP " ++ toString resp.status ++ ": " ++ resp.statusText
    let msg :=
      if resp.text = "" then base
      else
        match resp.parsedJson with
        | some j => (j.errorField).getD base
        | none => resp.text
    .error msg
  else if strTrim resp.text = "" then
    .error "Empty response from server"
  else
    match resp.contentType with
    | some ct =>
      if strIncludes ct "application/json" = false then
        .error ("Expected JSON but got " ++ ct ++ ": " ++ resp.text.take 100)
      else
        match resp.parsedJson with
        | some j => .ok j
        | none => .error ("Invalid JSON response: " ++ resp.text.take 100)
    | none =>
      match resp.parsedJson with
      | some j => .ok j
      | none => .error ("Invalid JSON response: " ++ resp.text.take 100)

/-! ## Concrete fixtures used in witnesses -/

/-- A parsed paper fixture. -/
def demoPaper : Paper := ⟨"T", ["A"], "X", [], "CV"⟩

/-- A pdf-kind pipeline input fixture. -/
def demoPdfInput : PipelineInput := ⟨"pdf", .file "paper.pdf", "CV"⟩

/-- A backend whose parse endpoints succeed, whose summarize stage returns a
summary with an empty `steps` array, and whose illustrate endpoint would
succeed if called. -/
def emptyStepsBackend : Backend :=
  ⟨fun _ _ => .ok demoPaper, fun _ _ => .ok demoPaper,
   fun _ _ => .ok demoPaper, fun _ => .ok ⟨"idea", some []⟩,
   fun _ _ => .ok ⟨[]⟩⟩

/-- A backend whose summarize stage fails. -/
def failingSummarizeBackend : Backend :=
  ⟨fun _ _ => .ok demoPaper, fun _ _ => .ok demoPaper,
   fun _ _ => .ok demoPaper, fun _ => .error ⟨"summarize failed"⟩,
   fun _ _ => .ok ⟨[]⟩⟩

/-- A manual-kind form state with the authors field left empty. -/
def emptyAuthorsForm : FormState :=
  ⟨"manual", none, "", "A study", "", "An abstract", [], "CV"⟩

/-! ## Theorems -/

/-- The trace of the parse phase never contains the later stages. -/
lemma parsePhase_no_later (be : Backend) (input : PipelineInput) :
    Endpoint.summarize ∉ (parsePhase be input).2 ∧
    Endpoint.illustrate ∉ (parsePhase be input).2 := by
  unfold parsePhase
  split_ifs <;> simp

/-- The trace of the parse phase consists of parse endpoints only. -/
lemma parsePhase_filter_isParse (be : Backend) (input : PipelineInput) :
    ((parsePhase be input).2).filter Endpoint.isParse = (parsePhase be input).2 := by
  unfold parsePhase
  split_ifs <;> simp [Endpoint.isParse]

/-- Run shape: a failing parse stage aborts the pipeline with that error and
no further calls. -/
lemma executeFullPipeline_parse_error (be : Backend) (input : PipelineInput)
    (tr : List Endpoint) (e : ApiError)
    (hpp : parsePhase be input = (Except.error e, tr)) :
    executeFullPipeline be input = (Except.error e, tr) := by
  simp [executeFullPipeline, hpp]

/-- Run shape: a failing summarize stage aborts the pipeline with that error
after the parse and summarize calls. -/
lemma executeFullPipeline_summarize_error (be : Backend)
    (input : PipelineInput) (tr : List Endpoint) (p : Paper) (e : ApiError)
    (hpp : parsePhase be input = (Except.ok p, tr))
    (hs : be.summarizeResp p = Except.error e) :
    executeFullPipeline be input = (Except.error e, tr ++ [Endpoint.summarize]) := by
  simp [executeFullPipeline, hpp, hs]

/-- Run shape: with an empty key-point list the illustrate call is skipped and
the result carries `{images: []}`. -/
lemma executeFullPipeline_empty_steps (be : Backend) (input : PipelineInput)
    (tr : List Endpoint) (p : Paper) (s : Summary)
    (hpp : parsePhase be input = (Except.ok p, tr))
    (hs : be.summarizeResp p = Except.ok s)
    (hkp : keyPoints s = []) :
    executeFullPipeline be input =
      (Except.ok ⟨p, s, ⟨[]⟩⟩, tr ++ [Endpoint.summarize]) := by
  simp [executeFullPipeline, hpp, hs, hkp]

/-- Run shape: with a nonempty key-point list the illustrate endpoint is
called and its successful answer becomes the `images` field. -/
lemma executeFullPipeline_illustrate_ok (be : Backend) (input : PipelineInput)
    (tr : List Endpoint) (p : Paper) (s : Summary) (imgs : IllustrationSet)
    (hpp : parsePhase be input = (Except.ok p, tr))
    (hs : be.summarizeResp p = Except.ok s)
    (hkp : keyPoints s ≠ [])
    (hg : be.generateImagesResp (keyPoints s) "pastel" = Except.ok imgs) :
    executeFullPipeline be input =
      (Except.ok ⟨p, s, imgs⟩,
        tr ++ [Endpoint.summarize, Endpoint.illustrate]) := by
  have hl : 0 < (keyPoints s).length := List.length_pos.mpr hkp
  simp [executeFullPipeline, hpp, hs, hl, hg]

/-- Run shape: a failing illustrate call aborts the pipeline with that
error. -/
lemma executeFullPipeline_illustrate_error (be : Backend)
    (input : PipelineInput) (tr : List Endpoint) (p : Paper) (s : Summary)
    (e : ApiError)
    (hpp : parsePhase be input = (Except.ok p, tr))
    (hs : be.summarizeResp p = Except.ok s)
    (hkp : keyPoints s ≠ [])
    (hg : be.generateImagesResp (keyPoints s) "pastel" = Except.error e) :
    executeFullPipeline be input =
      (Except.error e, tr ++ [Endpoint.summarize, Endpoint.illustrate]) := by
  have hl : 0 < (keyPoints s).length := List.length_pos.mpr hkp
  simp [executeFullPipeline, hpp, hs, hl, hg]

/-- The density `pixelsPerMm` is positive. -/
lemma pixelsPerMm_pos : 0 < pixelsPerMm := by norm_num [pixelsPerMm]

/-- Because `ratio = min(widthRatio, heightRatio)` and
`heightRatio = contentHeight / imgHeightMm`, the scaled height never exceeds
the page content height: the multi-page branch of `exportToPDF` is
unreachable. -/
lemma scaledHeight_le_contentHeight (imgWidth imgHeight : ℚ)
    (hih : 0 < imgHeight) :
    scaledHeight imgWidth imgHeight ≤ contentHeight := by
  have hmm : 0 < imgHeightMm imgHeight :=
    div_pos hih pixelsPerMm_pos
  have hmin : fitFactor imgWidth imgHeight ≤ heightFactor imgHeight :=
    min_le_right _ _
  have h1 : scaledHeight imgWidth imgHeight ≤
      imgHeightMm imgHeight * heightFactor imgHeight := by
    unfold scaledHeight
    exact mul_le_mul_of_nonneg_left hmin hmm.le
  have h2 : imgHeightMm imgHeight * heightFactor imgHeight = contentHeight := by
    unfold heightFactor
    field_simp
  linarith

/-- Every positive-height bitmap is emitted as exactly one page. -/
lemma paginate_eq_single (imgWidth imgHeight : ℚ) (hih : 0 < imgHeight) :
    paginate imgWidth imgHeight =
      [⟨(pdfWidth - scaledWidth imgWidth imgHeight) / 2, margin,
        scaledWidth imgWidth imgHeight, scaledHeight imgWidth imgHeight⟩] := by
  unfold paginate
  simp only [scaledHeight_le_contentHeight imgWidth imgHeight hih, if_true]

/-- C9: a bitmap whose scaled height fits the page content height (including
exact equality) produces exactly one page, centered horizontally
(`x = (pdfWidth - scaledWidth) / 2`) and placed at the top margin
(`y = margin`). -/
theorem exportToPDF_single_page_c9 (imgWidth imgHeight : ℚ)
    (hiw : 0 < imgWidth) (hih : 0 < imgHeight)
    (hfit : scaledHeight imgWidth imgHeight ≤ contentHeight) :
    paginate imgWidth imgHeight =
      [⟨(pdfWidth - scaledWidth imgWidth imgHeight) / 2, margin,
        scaledWidth imgWidth imgHeight, scaledHeight imgWidth imgHeight⟩] ∧
    (paginate imgWidth imgHeight).length = 1 := by
  constructor
  · unfold paginate
    simp only [hfit, if_true]
  · unfold paginate
    simp only [hfit, if_true, List.length_singleton]

/-- C9 witness: a 190 × 277 px bitmap hits the boundary case exactly
(`scaledHeight = contentHeight = 277`) and yields the single page
`(x, y, w, h) = (10, 10, 190, 277)`. -/
theorem exportToPDF_single_page_c9_witness :
    scaledHeight 190 277 = contentHeight ∧
    paginate 190 277 = [⟨10, 10, 190, 277⟩] := by
  have hb : scaledHeight 190 277 = contentHeight := by
    norm_num [scaledHeight, imgHeightMm, fitFactor, widthFactor, heightFactor,
      imgWidthMm, contentWidth, contentHeight, pdfWidth, pdfHeight, margin,
      pixelsPerMm]
  refine ⟨hb, ?_⟩
  have h := exportToPDF_single_page_c9 190 277 (by norm_num) (by norm_num) hb.le
  rw [h.1]
  norm_num [scaledWidth, scaledHeight, imgWidthMm, imgHeightMm, fitFactor,
    widthFactor, heightFactor, contentWidth, contentHeight, pdfWidth,
    pdfHeight, margin, pixelsPerMm, hb, PdfPage.mk.injEq]

/-- C2: if the theme flag is `"dark"` before an `exportToPDF` call, it equals
`"dark"` after the call returns, on every exit path — success, a failing
dynamic import, a deliberately failing rasterization, or a failing save. -/
theorem exportToPDF_theme_restored_c2 (env : ExportEnv)
    (hdark : env.theme0 = "dark") :
    (exportToPDFRun env).finalTheme = "dark" := by
  unfold exportToPDFRun restoreTheme
  simp only [hdark]
  split_ifs <;> simp_all

/-- C2 witness: a dark-theme export whose rasterization phase fails still
returns with the theme flag equal to `"dark"`. -/
theorem exportToPDF_theme_restored_c2_witness :
    (exportToPDFRun ⟨"dark", [], true, false, true⟩).finalTheme = "dark" :=
  exportToPDF_theme_restored_c2 ⟨"dark", [], true, false, true⟩ rfl

/-- C3: image resolution tries the primary relay, on failure exactly the one
fallback relay; when both fail the call returns `none`, the image keeps its
original `src`, a warning is logged for that image, and — because the
resolution phase has no failure exit — an export whose other phases succeed
completes regardless of the relay outcomes. -/
theorem imageRelay_fallback_c3 (net : ImageNetwork) (img : Img)
    (hext : isInlineSrc img.src = false) :
    ((net.primaryResult.failed = false →
        (imageToBase64 net).attempts = [Relay.primary]) ∧
      (net.primaryResult.failed = true →
        (imageToBase64 net).attempts = [Relay.primary, Relay.fallback])) ∧
    (net.primaryResult.failed = true → net.fallbackResult.failed = true →
      (imageToBase64 net).result = none ∧
      (processImage net img).img = img ∧
      (processImage net img).warned = true) ∧
    (∀ env : ExportEnv, env.importsOk = true → env.captureOk = true →
      env.saveOk = true → (exportToPDFRun env).success = true) := by
  refine ⟨⟨?_, ?_⟩, ?_, ?_⟩
  · intro h
    cases hp : net.primaryResult <;>
      simp_all [imageToBase64, RelayResult.failed]
  · intro h
    cases hp : net.primaryResult <;>
      cases hf : net.fallbackResult <;>
        simp_all [imageToBase64, RelayResult.failed]
  · intro h1 h2
    cases hp : net.primaryResult <;>
      cases hf : net.fallbackResult <;>
        simp_all [imageToBase64, processImage, RelayResult.failed]
  · intro env h1 h2 h3
    unfold exportToPDFRun
    simp only [h1, h2, h3]
    split_ifs <;> simp_all

/-- C3 witness: with the primary relay unreachable and the fallback answering
HTTP 500, the call returns `none`, the external image keeps its `src`, its
warning is logged, and an export containing that image completes. -/
theorem imageRelay_fallback_c3_witness :
    (imageToBase64 ⟨.netError "down", .httpError 500⟩).result = none ∧
    (processImage ⟨.netError "down", .httpError 500⟩
      ⟨"https://a/b.png"⟩).img = ⟨"https://a/b.png"⟩ ∧
    (processImage ⟨.netError "down", .httpError 500⟩
      ⟨"https://a/b.png"⟩).warned = true ∧
    (exportToPDFRun ⟨"light",
      [(⟨"https://a/b.png"⟩, ⟨.netError "down", .httpError 500⟩)],
      true, true, true⟩).success = true := by
  have h := imageRelay_fallback_c3 ⟨.netError "down", .httpError 500⟩
    ⟨"https://a/b.png"⟩ (by decide)
  exact ⟨(h.2.1 rfl rfl).1, (h.2.1 rfl rfl).2.1, (h.2.1 rfl rfl).2.2,
    h.2.2 _ rfl rfl rfl⟩

/-- C8: in every schedule of Phase 2, rasterization has begun only if every
image resolution has settled: any reachable state with `captured = true` has
no pending resolution. -/
theorem rasterization_barrier_c8 (pending0 : List Nat) (s : Phase2State)
    (hreach : exportReaches pending0 s) (hcap : s.captured = true) :
    s.pending = [] := by
  induction hreach with
  | refl => simp at hcap
  | tail hsteps hstep ih =>
    cases hstep with
    | settle i o t hmem hc => simp at hcap
    | capture t hall hc => rfl

/-- C8 witness: a concrete schedule with two images — settle image 0, settle
image 1, then capture — reaches the captured state, and the theorem yields
that its pending set is empty. -/
theorem rasterization_barrier_c8_witness :
    exportReaches [0, 1] ⟨[], true⟩ ∧
    (Phase2State.mk [] true).pending = [] := by
  have s1 : ExportStep ⟨[0, 1], false⟩ ⟨([0, 1] : List Nat).erase 0, false⟩ :=
    ExportStep.settle 0 SettleOutcome.direct ⟨[0, 1], false⟩ (by simp) rfl
  have e1 : (([0, 1] : List Nat).erase 0) = [1] := by decide
  rw [e1] at s1
  have s2 : ExportStep ⟨[1], false⟩ ⟨([1] : List Nat).erase 1, false⟩ :=
    ExportStep.settle 1 SettleOutcome.gaveUp ⟨[1], false⟩ (by simp) rfl
  have e2 : (([1] : List Nat).erase 1) = [] := by decide
  rw [e2] at s2
  have s3 : ExportStep ⟨[], false⟩ ⟨[], true⟩ :=
    ExportStep.capture ⟨[], false⟩ rfl rfl
  have t : exportReaches [0, 1] ⟨[], true⟩ :=
    Relation.ReflTransGen.head s1
      (Relation.ReflTransGen.head s2 (Relation.ReflTransGen.single s3))
  exact ⟨t, rasterization_barrier_c8 [0, 1] ⟨[], true⟩ t rfl⟩

/-- C1: evaluated at a tall capture (1488 × 20000 px canvas), the multi-page
condition `scaledHeight > contentHeight` is false — the scale factor is the
min of the width and height ratios, so `scaledHeight ≤ contentHeight` holds
identically — and pagination emits exactly one page instead of slicing the
bitmap into `ceil` many page-height bands. -/
theorem exportToPDF_pagination_c1_eval :
    scaledHeight 1488 20000 ≤ contentHeight ∧
    (paginate 1488 20000).length = 1 := by
  have hle : scaledHeight 1488 20000 ≤ contentHeight :=
    scaledHeight_le_contentHeight 1488 20000 (by norm_num)
  refine ⟨hle, ?_⟩
  rw [paginate_eq_single 1488 20000 (by norm_num)]
  rfl

/-- The parse-endpoint part of the full-run trace is exactly the parse
trace of the parse phase. -/
lemma executeFullPipeline_filter_isParse (be : Backend)
    (input : PipelineInput) :
    ((executeFullPipeline be input).2).filter Endpoint.isParse =
      (parsePhase be input).2 := by
  rcases hpp : parsePhase be input with ⟨pr, tr⟩
  have hfil : tr.filter Endpoint.isParse = tr := by
    have h := parsePhase_filter_isParse be input
    rw [hpp] at h
    simpa using h
  cases pr with
  | error e =>
    rw [executeFullPipeline_parse_error be input tr e hpp]
    simpa using hfil
  | ok p =>
    cases hs : be.summarizeResp p with
    | error e =>
      rw [executeFullPipeline_summarize_error be input tr p e hpp hs]
      simp [List.filter_append, hfil, Endpoint.isParse]
    | ok s =>
      by_cases hkp : keyPoints s = []
      · rw [executeFullPipeline_empty_steps be input tr p s hpp hs hkp]
        simp [List.filter_append, hfil, Endpoint.isParse]
      · cases hg : be.generateImagesResp (keyPoints s) "pastel" with
        | error e =>
          rw [executeFullPipeline_illustrate_error be input tr p s e hpp hs
            hkp hg]
          simp [List.filter_append, hfil, Endpoint.isParse]
        | ok imgs =>
          rw [executeFullPipeline_illustrate_ok be input tr p s imgs hpp hs
            hkp hg]
          simp [List.filter_append, hfil, Endpoint.isParse]

/-- C4: when the summarize stage returns a summary whose `steps` field is
absent or an empty sequence, the pipeline sets `images` to `{images: []}`
without calling the illustrate endpoint, and still returns the assembled
`{paperData, summary, images}` result. -/
theorem empty_steps_skip_c4 (be : Backend) (input : PipelineInput)
    (tr : List Endpoint) (p : Paper) (s : Summary)
    (hpp : parsePhase be input = (Except.ok p, tr))
    (hs : be.summarizeResp p = Except.ok s)
    (hsteps : s.steps = none ∨ s.steps = some []) :
    executeFullPipeline be input =
      (Except.ok ⟨p, s, ⟨[]⟩⟩, tr ++ [Endpoint.summarize]) ∧
    Endpoint.illustrate ∉ (executeFullPipeline be input).2 := by
  have hkp : keyPoints s = [] := by
    rcases hsteps with h | h <;> simp [keyPoints, h]
  have hrun := executeFullPipeline_empty_steps be input tr p s hpp hs hkp
  refine ⟨hrun, ?_⟩
  have hno := (parsePhase_no_later be input).2
  rw [hpp] at hno
  simp only at hno
  rw [hrun]
  simp [List.mem_append, hno]

/-- C4 witness: a backend whose summarize answer has `steps = []` — the run
returns the assembled result with empty images and the illustrate endpoint is
absent from the call trace. -/
theorem empty_steps_skip_c4_witness :
    executeFullPipeline emptyStepsBackend demoPdfInput =
      (Except.ok ⟨demoPaper, ⟨"idea", some []⟩, ⟨[]⟩⟩,
        [Endpoint.parseByFile, Endpoint.summarize]) ∧
    Endpoint.illustrate ∉
      (executeFullPipeline emptyStepsBackend demoPdfInput).2 := by
  have h := empty_steps_skip_c4 emptyStepsBackend demoPdfInput
    [Endpoint.parseByFile] demoPaper ⟨"idea", some []⟩ rfl rfl (Or.inr rfl)
  simpa using h

/-- C5: a missing required field fails validation before any network call —
manual kind with an empty authors field (or any empty required manual field),
pdf kind with no file selected, url kind with an empty or whitespace-only
string — each yields the validation error with an empty endpoint trace. -/
theorem validation_before_network_c5 (st : FormState) (be : Backend) :
    (st.inputType = "manual" → st.manualAuthors = "" →
      handleSubmit st be =
        (Except.error ⟨"Please fill in all required fields"⟩, [])) ∧
    (st.inputType = "manual" →
      (st.manualTitle = "" ∨ st.manualAuthors = "" ∨ st.manualAbstract = "") →
      handleSubmit st be =
        (Except.error ⟨"Please fill in all required fields"⟩, [])) ∧
    (st.inputType = "pdf" → st.pdfFile = none →
      handleSubmit st be = (Except.error ⟨"Please select a PDF file"⟩, [])) ∧
    (st.inputType = "url" → strTrim st.urlInput = "" →
      handleSubmit st be = (Except.error ⟨"Please enter a URL"⟩, [])) := by
  refine ⟨?_, ?_, ?_, ?_⟩
  · intro h hA
    simp [handleSubmit, h, hA]
  · intro h hreq
    rcases hreq with h1 | h1 | h1 <;> simp [handleSubmit, h, h1]
  · intro h hf
    simp [handleSubmit, h, hf]
  · intro h ht
    simp [handleSubmit, h, ht]

/-- C5 witness: the manual form with an empty authors field fails with the
validation error and no endpoint is called. -/
theorem validation_before_network_c5_witness :
    handleSubmit emptyAuthorsForm failingSummarizeBackend =
      (Except.error ⟨"Please fill in all required fields"⟩, []) :=
  (validation_before_network_c5 emptyAuthorsForm failingSummarizeBackend).1
    rfl rfl

/-- C6: the call trace of every run is a prefix of parse, then summarize,
then illustrate (stage n+1 is reached only once stage n answered); a failing
parse surfaces its error with no later call; a failing summarize surfaces its
error and leaves the illustrate call count at zero. -/
theorem stage_sequencing_c6 (be : Backend) (input : PipelineInput) :
    (∃ k, (executeFullPipeline be input).2 =
      ((parsePhase be input).2 ++
        [Endpoint.summarize, Endpoint.illustrate]).take k) ∧
    (∀ e tr, parsePhase be input = (Except.error e, tr) →
      (executeFullPipeline be input).1 = Except.error e ∧
      Endpoint.summarize ∉ (executeFullPipeline be input).2 ∧
      Endpoint.illustrate ∉ (executeFullPipeline be input).2) ∧
    (∀ p tr e, parsePhase be input = (Except.ok p, tr) →
      be.summarizeResp p = Except.error e →
      (executeFullPipeline be input).1 = Except.error e ∧
      ((executeFullPipeline be input).2.count Endpoint.illustrate) = 0) := by
  refine ⟨?_, ?_, ?_⟩
  · rcases hpp : parsePhase be input with ⟨pr, tr⟩
    cases pr with
    | error e =>
      refine ⟨tr.length, ?_⟩
      rw [executeFullPipeline_parse_error be input tr e hpp]
      simp [List.take_left]
    | ok p =>
      cases hs : be.summarizeResp p with
      | error e =>
        refine ⟨tr.length + 1, ?_⟩
        rw [executeFullPipeline_summarize_error be input tr p e hpp hs]
        simp [List.take_append]
      | ok s =>
        by_cases hkp : keyPoints s = []
        · refine ⟨tr.length + 1, ?_⟩
          rw [executeFullPipeline_empty_steps be input tr p s hpp hs hkp]
          simp [List.take_append]
        · cases hg : be.generateImagesResp (keyPoints s) "pastel" with
          | error e =>
            refine ⟨tr.length + 2, ?_⟩
            rw [executeFullPipeline_illustrate_error be input tr p s e hpp hs
              hkp hg]
            simp [List.take_append]
          | ok imgs =>
            refine ⟨tr.length + 2, ?_⟩
            rw [executeFullPipeline_illustrate_ok be input tr p s imgs hpp hs
              hkp hg]
            simp [List.take_append]
  · intro e tr hpp
    have hrun := executeFullPipeline_parse_error be input tr e hpp
    have hno := parsePhase_no_later be input
    rw [hpp] at hno
    simp only at hno
    rw [hrun]
    exact ⟨rfl, hno.1, hno.2⟩
  · intro p tr e hpp hs
    have hrun := executeFullPipeline_summarize_error be input tr p e hpp hs
    have hno := (parsePhase_no_later be input).2
    rw [hpp] at hno
    simp only at hno
    rw [hrun]
    refine ⟨rfl, ?_⟩
    simp [List.count_eq_zero, hno]

/-- C6 witness: with a backend whose summarize stage fails, the run surfaces
that error and the illustrate endpoint call count is zero. -/
theorem stage_sequencing_c6_witness :
    (executeFullPipeline failingSummarizeBackend demoPdfInput).1 =
      Except.error ⟨"summarize failed"⟩ ∧
    ((executeFullPipeline failingSummarizeBackend demoPdfInput).2.count
      Endpoint.illustrate) = 0 :=
  (stage_sequencing_c6 failingSummarizeBackend demoPdfInput).2.2
    demoPaper [Endpoint.parseByFile] ⟨"summarize failed"⟩ rfl rfl

/-- C7: every run calls exactly the parse endpoint matching the input kind
and no other parse endpoint; an unrecognized kind fails without calling any
endpoint at all. -/
theorem parse_dispatch_c7 (be : Backend) (input : PipelineInput) :
    (input.type = "pdf" →
      ((executeFullPipeline be input).2).filter Endpoint.isParse =
        [Endpoint.parseByFile]) ∧
    (input.type = "url" →
      ((executeFullPipeline be input).2).filter Endpoint.isParse =
        [Endpoint.parseByUrl]) ∧
    (input.type = "manual" →
      ((executeFullPipeline be input).2).filter Endpoint.isParse =
        [Endpoint.parseByManual]) ∧
    (input.type ≠ "pdf" → input.type ≠ "url" → input.type ≠ "manual" →
      (executeFullPipeline be input).2 = [] ∧
      (executeFullPipeline be input).1 =
        Except.error ⟨"Invalid input type: " ++ input.type⟩) := by
  refine ⟨?_, ?_, ?_, ?_⟩
  · intro h
    rw [executeFullPipeline_filter_isParse be input]
    simp [parsePhase, h]
  · intro h
    rw [executeFullPipeline_filter_isParse be input]
    simp [parsePhase, h]
  · intro h
    rw [executeFullPipeline_filter_isParse be input]
    simp [parsePhase, h]
  · intro h1 h2 h3
    have hpp : parsePhase be input =
        (Except.error ⟨"Invalid input type: " ++ input.type⟩, []) := by
      simp [parsePhase, h1, h2, h3]
    have hrun := executeFullPipeline_parse_error be input []
      ⟨"Invalid input type: " ++ input.type⟩ hpp
    rw [hrun]
    exact ⟨rfl, rfl⟩

/-- C7 witness: a pdf-kind input reaches exactly the parse-by-file endpoint,
and an unrecognized kind fails with no endpoint called. -/
theorem parse_dispatch_c7_witness :
    ((executeFullPipeline failingSummarizeBackend demoPdfInput).2).filter
      Endpoint.isParse = [Endpoint.parseByFile] ∧
    (executeFullPipeline failingSummarizeBackend
      ⟨"abstract", .absent, "CV"⟩).2 = [] := by
  refine ⟨(parse_dispatch_c7 failingSummarizeBackend demoPdfInput).1 rfl, ?_⟩
  exact ((parse_dispatch_c7 failingSummarizeBackend
    ⟨"abstract", .absent, "CV"⟩).2.2.2 (by decide) (by decide) (by decide)).1

/-- C10: an HTTP-success response with an empty (whitespace-only) body, a
declared non-JSON content type, or a body `JSON.parse` rejects is converted
into a thrown error; a value returned normally is exactly the successfully
parsed JSON of the body. -/
theorem apiRequest_json_only_c10 (resp : HttpResponse)
    (hok : resp.ok = true) :
    (strTrim resp.text = "" →
      apiRequest resp = Except.error "Empty response from server") ∧
    (∀ ct, resp.contentType = some ct →
      strIncludes ct "application/json" = false →
      ∃ msg, apiRequest resp = Except.error msg) ∧
    (resp.parsedJson = none → ∃ msg, apiRequest resp = Except.error msg) ∧
    (∀ v, apiRequest resp = Except.ok v → resp.parsedJson = some v) := by
  refine ⟨?_, ?_, ?_, ?_⟩
  · intro ht
    simp [apiRequest, hok, ht]
  · intro ct hct hj
    by_cases ht : strTrim resp.text = ""
    · exact ⟨"Empty response from server", by simp [apiRequest, hok, ht]⟩
    · exact ⟨"Expected JSON but got " ++ ct ++ ": " ++ resp.text.take 100,
        by simp [apiRequest, hok, ht, hct, hj]⟩
  · intro hp
    by_cases ht : strTrim resp.text = ""
    · exact ⟨"Empty response from server", by simp [apiRequest, hok, ht]⟩
    · cases hct : resp.contentType with
      | none => exact ⟨"Invalid JSON response: " ++ resp.text.take 100,
          by simp [apiRequest, hok, ht, hct, hp]⟩
      | some ct =>
        by_cases hj : strIncludes ct "application/json" = false
        · exact ⟨"Expected JSON but got " ++ ct ++ ": " ++ resp.text.take 100,
            by simp [apiRequest, hok, ht, hct, hj]⟩
        · exact ⟨"Invalid JSON response: " ++ resp.text.take 100,
            by simp [apiRequest, hok, ht, hct, hj, hp]⟩
  · intro v hv
    by_cases ht : strTrim resp.text = ""
    · simp [apiRequest, hok, ht] at hv
    · cases hct : resp.contentType with
      | none =>
        cases hp : resp.parsedJson with
        | none => simp [apiRequest, hok, ht, hct, hp] at hv
        | some j =>
          simp [apiRequest, hok, ht, hct, hp] at hv
          simp [hv]
      | some ct =>
        by_cases hj : strIncludes ct "application/json" = false
        · simp [apiRequest, hok, ht, hct, hj] at hv
        · cases hp : resp.parsedJson with
          | none => simp [apiRequest, hok, ht, hct, hj, hp] at hv
          | some j =>
            simp [apiRequest, hok, ht, hct, hj, hp] at hv
            simp [hv]

/-- C10 witness: a whitespace-only body, a text/html content type, and an
unparsable body each make the wrapper throw. -/
theorem apiRequest_json_only_c10_witness :
    apiRequest ⟨true, 200, "OK", "  ", some "application/json", none⟩ =
      Except.error "Empty response from server" ∧
    (∃ msg, apiRequest ⟨true, 200, "OK", "<p>hi</p>", some "text/html",
      some (Json.str "x")⟩ = Except.error msg) ∧
    (∃ msg, apiRequest ⟨true, 200, "OK", "not json",
      some "application/json", none⟩ = Except.error msg) := by
  refine ⟨?_, ?_, ?_⟩
  · exact (apiRequest_json_only_c10 _ rfl).1 (by decide)
  · exact (apiRequest_json_only_c10 _ rfl).2.1 "text/html" rfl (by decide)
  · exact (apiRequest_json_only_c10 _ rfl).2.2.1 rfl

end PaperBuddy
